import Mathlib

/-!
Verification of the sentiment-to-action decision engine and its logging
contract, shallowly embedded from `src/hw3/app.js` (with the earlier
logging-only variant in `src/unnamed/part_000`).

Numbers are modelled as exact rationals (`ℚ`); JavaScript strings are
modelled as Lean `String`s (truncation acts on the character sequence).
-/

namespace SentimentApp

/-- The `Action` metadata record returned by `determineBusinessAction`:
code, message, color, icon, css class. -/
structure Action where
  actionCode : String
  uiMessage : String
  uiColor : String
  icon : String
  cssClass : String
deriving DecidableEq, Repr

/-- The literal `OFFER_COUPON` record from `src/hw3/app.js` lines 71-77. -/
def offerCouponAction : Action where
  actionCode := "OFFER_COUPON"
  uiMessage := "We are truly sorry for your negative experience. Please accept this 50% discount coupon."
  uiColor := "#dc3545"
  icon := "fa-fire"
  cssClass := "coupon"

/-- The literal `REQUEST_FEEDBACK` record from `src/hw3/app.js` lines 79-85. -/
def requestFeedbackAction : Action where
  actionCode := "REQUEST_FEEDBACK"
  uiMessage := "Thank you for your feedback! Could you tell us how we can improve?"
  uiColor := "#6b7280"
  icon := "fa-clipboard-question"
  cssClass := "feedback"

/-- The literal `ASK_REFERRAL` record from `src/hw3/app.js` lines 87-93. -/
def askReferralAction : Action where
  actionCode := "ASK_REFERRAL"
  uiMessage := "We\x27re thrilled you enjoyed your experience! Refer a friend and both of you will earn rewards."
  uiColor := "#3b82f6"
  icon := "fa-user-friends"
  cssClass := "referral"

/-- The score normalisation step of `determineBusinessAction`
(`src/hw3/app.js` lines 59-67): `confidence` for `"POSITIVE"`,
`1 - confidence` for `"NEGATIVE"`, `0.5` otherwise. -/
def normalizedScore (confidence : ℚ) (label : String) : ℚ :=
  if label = "POSITIVE" then confidence
  else if label = "NEGATIVE" then 1 - confidence
  else 1/2

/-- `determineBusinessAction(confidence, label)` from `src/hw3/app.js`
lines 57-95: normalise the score, then apply the two thresholds
(`<= 0.4` gives the coupon, `< 0.7` gives the feedback request,
otherwise the referral ask). -/
def determineBusinessAction (confidence : ℚ) (label : String) : Action :=
  let n := normalizedScore confidence label
  if n ≤ 4/10 then offerCouponAction
  else if n < 7/10 then requestFeedbackAction
  else askReferralAction

/-- JS `s.substring(0, n)`: the first `n` code units of `s`
(modelled on the character sequence). -/
def jsSubstringTo (s : String) (n : ℕ) : String :=
  ⟨s.data.take n⟩

/-- A JSON value as used by the `meta` object in `logAnalysis`
(only flat string and number fields occur there). -/
inductive JsonValue
  | str (s : String)
  | num (q : ℚ)
deriving DecidableEq, Repr

/-- Escaping applied by `JSON.stringify` to string contents:
quote, backslash and the common control characters. -/
def escapeJsonString (s : String) : String :=
  String.join (s.data.map fun c =>
    if c = '\x22' then "\\\""
    else if c = '\\' then "\\\\"
    else if c = '\n' then "\\n"
    else if c = '\r' then "\\r"
    else if c = '\t' then "\\t"
    else String.singleton c)

/-- Rendering of a single JSON value by `JSON.stringify`.  The exact
decimal formatting of numbers is not modelled: a number renders as the
canonical form of the exact rational. -/
def JsonValue.render : JsonValue → String
  | .str s => "\"" ++ escapeJsonString s ++ "\""
  | .num q => toString q

/-- `JSON.stringify` of a flat object with the given fields in order. -/
def renderJsonObject (fields : List (String × JsonValue)) : String :=
  "\x7b" ++ String.intercalate ","
    (fields.map fun kv => "\"" ++ escapeJsonString kv.1 ++ "\":" ++ JsonValue.render kv.2) ++ "\x7d"

/-- The payload assembled by `logAnalysis` (`src/hw3/app.js` lines 378-384):
timestamp, truncated review, human-readable sentiment summary, the chosen
action code, and the `meta` object. -/
structure LogPayload where
  ts : ℕ
  review : String
  sentiment : String
  action_taken : String
  meta : List (String × JsonValue)
deriving DecidableEq, Repr

/-- The `meta` object built by `logAnalysis` (`src/hw3/app.js` lines 366-376),
with the impure inputs (user id, user agent, ISO timestamp) passed in as
parameters. -/
def logAnalysisMeta (review sentiment label : String) (score : ℚ) (action : Action)
    (userId userAgent timestampIso : String) : List (String × JsonValue) :=
  [("user_id", .str userId),
   ("model", .str "Xenova/distilbert-base-uncased-finetuned-sst-2-english"),
   ("sentiment_bucket", .str sentiment),
   ("label", .str label),
   ("confidence", .num score),
   ("user_agent", .str userAgent),
   ("timestamp_iso", .str timestampIso),
   ("review_length", .num (review.length : ℚ)),
   ("business_decision", .str (Action.actionCode action))]

/-- Models JS `(score * 100).toFixed(1)` for the nonnegative scores used
here: round to one decimal place, half away from zero. -/
def toFixed1OfPct (score : ℚ) : String :=
  let t : ℤ := round (score * 100 * 10)
  toString (t / 10) ++ "." ++ toString (t % 10)

/-- The payload assembled by `logAnalysis` (`src/hw3/app.js` lines 364-387):
`ts` from the clock, the review truncated to 5000 characters, the sentiment
summary string, `action_taken` set to the chosen action code, and the meta
object. -/
def logAnalysisPayload (review sentiment label : String) (score : ℚ) (action : Action)
    (ts : ℕ) (userId userAgent timestampIso : String) : LogPayload where
  ts := ts
  review := jsSubstringTo review 5000
  sentiment := label ++ " (" ++ toFixed1OfPct score ++ "% confidence)"
  action_taken := Action.actionCode action
  meta := logAnalysisMeta review sentiment label score action userId userAgent timestampIso

/-- The transport form built by `sendLogSimple` before the fetch
(`src/hw3/app.js` lines 186-191): the five URL-encoded fields, with the JS
falsy fallbacks (`ts || Date.now()` modelled with `now`; the string fields
fall back to themselves since only the empty string is falsy). -/
def sendLogSimpleForm (p : LogPayload) (now : ℕ) : List (String × String) :=
  [("ts", toString (if p.ts = 0 then now else p.ts)),
   ("review", jsSubstringTo p.review 5000),
   ("sentiment", p.sentiment),
   ("action_taken", p.action_taken),
   ("meta", renderJsonObject p.meta)]

/-- Outcome of awaiting `fetch`: either the promise rejects (network
error, already stringified) or a response arrives with a status and a
body text. -/
inductive FetchOutcome
  | networkError (err : String)
  | response (status : ℕ) (body : String)
deriving DecidableEq, Repr

/-- `res.ok`: status in the 2xx range. -/
def resOk (status : ℕ) : Bool :=
  200 ≤ status && status < 300

/-- The value `sendLogSimple` resolves to:
`{ success: true }` or `{ success: false, error }`. -/
structure SendResult where
  success : Bool
  error : Option String
deriving DecidableEq, Repr

/-- The try-block of `sendLogSimple` (`src/hw3/app.js` lines 193-198):
a rejected fetch propagates as an exception; a non-ok status raises
`Error("HTTP <status>: <body>")` (stringified with the `Error: ` prefix). -/
def sendLogSimpleTry (f : FetchOutcome) : Except String Unit :=
  match f with
  | .networkError e => .error e
  | .response status body =>
    if resOk status then .ok ()
    else .error ("Error: HTTP " ++ toString status ++ ": " ++ body)

/-- The result of `sendLogSimple` (`src/hw3/app.js` lines 193-205): the catch
converts any exception from the try-block into a resolved failure record,
so the caller always receives a plain `SendResult`. -/
def sendLogSimpleResult (f : FetchOutcome) : SendResult :=
  match sendLogSimpleTry f with
  | .ok _ => ⟨true, none⟩
  | .error e => ⟨false, some e⟩

/-- One classifier output entry as consumed by `extractSentimentData`:
`label` and `score` may each be absent (JS `undefined`). -/
structure SentimentData where
  label : Option String
  score : Option ℚ
deriving DecidableEq, Repr

/-- JS `v || d` for a possibly-absent string: the empty string is falsy. -/
def jsOrString (v : Option String) (d : String) : String :=
  match v with
  | some s => if s = "" then d else s
  | none => d

/-- JS `v || d` for a possibly-absent number: `0` is falsy. -/
def jsOrNum (v : Option ℚ) (d : ℚ) : ℚ :=
  match v with
  | some q => if q = 0 then d else q
  | none => d

/-- The record returned by `extractSentimentData` in `src/hw3/app.js`. -/
structure ExtractedSentiment where
  sentiment : String
  label : String
  score : ℚ
  rawLabel : String
deriving DecidableEq, Repr

/-- `extractSentimentData(result)` from `src/hw3/app.js` lines 328-352:
defaults apply unless the nested array shape holds, in which case
`rawLabel = sentimentData.label || "NEUTRAL"`, `label` is its uppercase
form, `score = sentimentData.score || 0.5`, and the sentiment bucket is
derived from `label` and `score`. -/
def extractSentimentData (result : List (List SentimentData)) : ExtractedSentiment :=
  match result with
  | (sentimentData :: _) :: _ =>
    let rawLabel := jsOrString (SentimentData.label sentimentData) "NEUTRAL"
    let label := rawLabel.toUpper
    let score := jsOrNum (SentimentData.score sentimentData) (1/2)
    let sentiment :=
      if label = "POSITIVE" ∧ score > 1/2 then "positive"
      else if label = "NEGATIVE" ∧ score > 1/2 then "negative"
      else "neutral"
    ⟨sentiment, label, score, rawLabel⟩
  | _ => ⟨"neutral", "NEUTRAL", 1/2, "NEUTRAL"⟩

lemma offerCoupon_ne_requestFeedback : offerCouponAction ≠ requestFeedbackAction := by decide

lemma offerCoupon_ne_askReferral : offerCouponAction ≠ askReferralAction := by decide

lemma requestFeedback_ne_askReferral : requestFeedbackAction ≠ askReferralAction := by decide

lemma normalizedScore_positive (c : ℚ) : normalizedScore c "POSITIVE" = c := by
  simp [normalizedScore]

lemma normalizedScore_negative (c : ℚ) : normalizedScore c "NEGATIVE" = 1 - c := by
  simp [normalizedScore]

/-- C1: for every confidence in `[0,1]`, `determineBusinessAction(confidence,
"POSITIVE")` returns `OFFER_COUPON` iff `confidence ≤ 0.40`, `ASK_REFERRAL`
iff `confidence ≥ 0.70`, and `REQUEST_FEEDBACK` otherwise; the boundary
`0.40` yields `OFFER_COUPON` and the boundary `0.70` yields `ASK_REFERRAL`. -/
theorem determineBusinessAction_positive_bands (c : ℚ) (_h0 : 0 ≤ c) (_h1 : c ≤ 1) :
    (determineBusinessAction c "POSITIVE" = offerCouponAction ↔ c ≤ 4/10) ∧
    (determineBusinessAction c "POSITIVE" = askReferralAction ↔ 7/10 ≤ c) ∧
    (determineBusinessAction c "POSITIVE" = requestFeedbackAction ↔ 4/10 < c ∧ c < 7/10) ∧
    determineBusinessAction (4/10) "POSITIVE" = offerCouponAction ∧
    determineBusinessAction (7/10) "POSITIVE" = askReferralAction := by
  refine ⟨?_, ?_, ?_,
    by norm_num [determineBusinessAction, normalizedScore_positive],
    by norm_num [determineBusinessAction, normalizedScore_positive]⟩ <;>
    simp only [determineBusinessAction, normalizedScore_positive] <;>
    split_ifs with hA hB
  · exact iff_of_true rfl hA
  · exact iff_of_false (Ne.symm offerCoupon_ne_requestFeedback) hA
  · exact iff_of_false (Ne.symm offerCoupon_ne_askReferral) hA
  · exact iff_of_false offerCoupon_ne_askReferral (by intro h; linarith)
  · exact iff_of_false requestFeedback_ne_askReferral (by intro h; linarith)
  · exact iff_of_true rfl (le_of_not_lt hB)
  · exact iff_of_false offerCoupon_ne_requestFeedback (by rintro ⟨h4, _⟩; linarith)
  · exact iff_of_true rfl ⟨not_le.mp hA, hB⟩
  · exact iff_of_false (Ne.symm requestFeedback_ne_askReferral) (by rintro ⟨_, h7⟩; exact hB h7)

theorem determineBusinessAction_positive_bands_witness :
    determineBusinessAction (1/2) "POSITIVE" = requestFeedbackAction :=
  (determineBusinessAction_positive_bands (1/2) (by norm_num) (by norm_num)).2.2.1.mpr
    (by norm_num)

/-- C2: for every confidence in `[0,1]`, `determineBusinessAction(confidence,
"NEGATIVE")` — which computes `normalizedScore = 1 − confidence` — returns
`OFFER_COUPON` iff `confidence ≥ 0.60`, `ASK_REFERRAL` iff
`confidence ≤ 0.30`, and `REQUEST_FEEDBACK` otherwise. -/
theorem determineBusinessAction_negative_bands (c : ℚ) (_h0 : 0 ≤ c) (_h1 : c ≤ 1) :
    (determineBusinessAction c "NEGATIVE" = offerCouponAction ↔ 6/10 ≤ c) ∧
    (determineBusinessAction c "NEGATIVE" = askReferralAction ↔ c ≤ 3/10) ∧
    (determineBusinessAction c "NEGATIVE" = requestFeedbackAction ↔ 3/10 < c ∧ c < 6/10) := by
  refine ⟨?_, ?_, ?_⟩ <;>
    simp only [determineBusinessAction, normalizedScore_negative] <;>
    split_ifs with hA hB
  · exact iff_of_true rfl (by linarith)
  · exact iff_of_false (Ne.symm offerCoupon_ne_requestFeedback) (by intro h; exact hA (by linarith))
  · exact iff_of_false (Ne.symm offerCoupon_ne_askReferral) (by intro h; exact hA (by linarith))
  · exact iff_of_false offerCoupon_ne_askReferral (by intro h; linarith)
  · exact iff_of_false requestFeedback_ne_askReferral (by intro h; linarith)
  · exact iff_of_true rfl (by have h7 := le_of_not_lt hB; linarith)
  · exact iff_of_false offerCoupon_ne_requestFeedback (by rintro ⟨_, h6⟩; linarith)
  · exact iff_of_true rfl (by have h4 := not_le.mp hA; exact ⟨by linarith, by linarith⟩)
  · exact iff_of_false (Ne.symm requestFeedback_ne_askReferral)
      (by rintro ⟨h3, _⟩; have h7 := le_of_not_lt hB; linarith)

theorem determineBusinessAction_negative_bands_witness :
    determineBusinessAction (95/100) "NEGATIVE" = offerCouponAction :=
  (determineBusinessAction_negative_bands (95/100) (by norm_num) (by norm_num)).1.mpr
    (by norm_num)

/-- C3: for every confidence and every label other than exactly `"POSITIVE"`
and exactly `"NEGATIVE"` (case-sensitive comparison), `determineBusinessAction`
returns `REQUEST_FEEDBACK` with the confidence ignored
(`normalizedScore` fixed at `0.5`). -/
theorem determineBusinessAction_other_label (c : ℚ) (label : String)
    (hp : label ≠ "POSITIVE") (hn : label ≠ "NEGATIVE") :
    determineBusinessAction c label = requestFeedbackAction ∧
    normalizedScore c label = 1/2 := by
  have h : normalizedScore c label = 1/2 := by simp [normalizedScore, hp, hn]
  refine ⟨?_, h⟩
  simp only [determineBusinessAction, h]
  norm_num

theorem determineBusinessAction_other_label_witness :
    determineBusinessAction 42 "positive" = requestFeedbackAction ∧
    normalizedScore 42 "positive" = 1/2 :=
  determineBusinessAction_other_label 42 "positive" (by decide) (by decide)

/-- C4: `determineBusinessAction` is a total pure function: for every rational
confidence (also outside `[0,1]`) and every label string, the result is
exactly one of the three fixed literal `Action` records. -/
theorem determineBusinessAction_total (c : ℚ) (label : String) :
    determineBusinessAction c label = offerCouponAction ∨
    determineBusinessAction c label = requestFeedbackAction ∨
    determineBusinessAction c label = askReferralAction := by
  simp only [determineBusinessAction]
  split_ifs <;> simp

/-- C5: `determineBusinessAction(0.95, "POSITIVE")` returns the
`ASK_REFERRAL` action whose message contains "thrilled", and
`determineBusinessAction(0.95, "NEGATIVE")` returns the `OFFER_COUPON`
action whose message contains "sorry". -/
theorem determineBusinessAction_scenarios :
    determineBusinessAction (95/100) "POSITIVE" = askReferralAction ∧
    (∃ pre post, Action.uiMessage askReferralAction = pre ++ "thrilled" ++ post) ∧
    determineBusinessAction (95/100) "NEGATIVE" = offerCouponAction ∧
    (∃ pre post, Action.uiMessage offerCouponAction = pre ++ "sorry" ++ post) :=
  ⟨by norm_num [determineBusinessAction, normalizedScore_positive],
   ⟨"We\x27re ",
    " you enjoyed your experience! Refer a friend and both of you will earn rewards.", rfl⟩,
   by norm_num [determineBusinessAction, normalizedScore_negative],
   ⟨"We are truly ",
    " for your negative experience. Please accept this 50% discount coupon.", rfl⟩⟩

/-- C9: polarity symmetry: for every confidence `c`,
`determineBusinessAction(c, "POSITIVE")` and
`determineBusinessAction(1 − c, "NEGATIVE")` return the same `Action`
record, since both reduce to the same `normalizedScore` under exact
arithmetic. -/
theorem determineBusinessAction_polarity_symmetry (c : ℚ) :
    determineBusinessAction c "POSITIVE" = determineBusinessAction (1 - c) "NEGATIVE" := by
  have h : normalizedScore (1 - c) "NEGATIVE" = c := by
    rw [normalizedScore_negative]; ring
  simp only [determineBusinessAction, normalizedScore_positive, h]

/-- C6: the log record built from review `"great"`, sentiment bucket
`"positive"`, label `"POSITIVE"`, confidence `0.99` and the `ASK_REFERRAL`
action serializes `action_taken = "ASK_REFERRAL"`, its `meta` object carries
`business_decision = "ASK_REFERRAL"`, and the `meta` form field is exactly
the JSON serialization of that object. -/
theorem logAnalysis_action_fields (ts now : ℕ) (userId userAgent timestampIso : String) :
    List.lookup "action_taken"
      (sendLogSimpleForm (logAnalysisPayload "great" "positive" "POSITIVE" (99/100)
        askReferralAction ts userId userAgent timestampIso) now) = some "ASK_REFERRAL" ∧
    List.lookup "business_decision"
      (LogPayload.meta (logAnalysisPayload "great" "positive" "POSITIVE" (99/100)
        askReferralAction ts userId userAgent timestampIso)) =
      some (JsonValue.str "ASK_REFERRAL") ∧
    List.lookup "meta"
      (sendLogSimpleForm (logAnalysisPayload "great" "positive" "POSITIVE" (99/100)
        askReferralAction ts userId userAgent timestampIso) now) =
      some (renderJsonObject (LogPayload.meta (logAnalysisPayload "great" "positive"
        "POSITIVE" (99/100) askReferralAction ts userId userAgent timestampIso))) := by
  refine ⟨?_, ?_, ?_⟩ <;>
    simp [sendLogSimpleForm, logAnalysisPayload, logAnalysisMeta, List.lookup, askReferralAction]

lemma jsSubstringTo_idem (s : String) (n : ℕ) :
    jsSubstringTo (jsSubstringTo s n) n = jsSubstringTo s n := by
  apply congrArg String.mk
  show (s.data.take n).take n = s.data.take n
  rw [List.take_take, min_self]

/-- C7: for every review string, the `review` field of the serialized log
record is the original review truncated to 5000 characters: it is a prefix
of the review, has length at most 5000, and equals the review whenever the
review has at most 5000 characters. -/
theorem logAnalysis_review_truncation (review sentiment label : String) (score : ℚ)
    (action : Action) (ts now : ℕ) (userId userAgent timestampIso : String) :
    let p := logAnalysisPayload review sentiment label score action
      ts userId userAgent timestampIso
    ∃ r, List.lookup "review" (sendLogSimpleForm p now) = some r ∧
      (∃ t, review.data = r.data ++ t) ∧
      r.length ≤ 5000 ∧
      (review.length ≤ 5000 → r = review) := by
  refine ⟨jsSubstringTo review 5000, ?_, ?_, ?_, ?_⟩
  · simp [sendLogSimpleForm, logAnalysisPayload, List.lookup, jsSubstringTo_idem]
  · exact ⟨review.data.drop 5000, (List.take_append_drop 5000 review.data).symm⟩
  · show (review.data.take 5000).length ≤ 5000
    rw [List.length_take]
    exact min_le_left _ _
  · intro h
    apply congrArg String.mk
    exact List.take_of_length_le h

theorem logAnalysis_review_truncation_witness :
    jsSubstringTo "great" 5000 = "great" ∧ ("great" : String).length ≤ 5000 := by
  have h := logAnalysis_review_truncation "great" "positive" "POSITIVE" (99/100)
    askReferralAction 1 2 "uid" "ua" "iso"
  obtain ⟨r, hr, -, -, heq⟩ := h
  have hlen : ("great" : String).length ≤ 5000 := by decide
  have hr5 : jsSubstringTo "great" 5000 = r := by
    simpa [sendLogSimpleForm, logAnalysisPayload, List.lookup, jsSubstringTo_idem] using hr
  exact ⟨hr5.trans (heq hlen), hlen⟩

/-- C8: on every transport failure (non-2xx status or network error)
`sendLogSimple` does not throw to its caller but resolves to
`{ success := false, error := some reason }`, and on a 2xx response it
resolves to `{ success := true }`; `success = true` holds exactly on 2xx
responses. -/
theorem sendLogSimple_resolves (f : FetchOutcome) :
    (SendResult.success (sendLogSimpleResult f) = true ↔
      ∃ status body, f = .response status body ∧ resOk status = true) ∧
    (∀ status body, f = .response status body → resOk status = false →
      sendLogSimpleResult f = ⟨false, some ("Error: HTTP " ++ toString status ++ ": " ++ body)⟩) ∧
    (∀ e, f = .networkError e → sendLogSimpleResult f = ⟨false, some e⟩) := by
  cases f with
  | networkError e =>
    refine ⟨?_, ?_, ?_⟩
    · simp [sendLogSimpleResult, sendLogSimpleTry]
    · intro status body h
      exact absurd h (by simp)
    · intro e' h
      simp only [FetchOutcome.networkError.injEq] at h
      subst h
      simp [sendLogSimpleResult, sendLogSimpleTry]
  | response status body =>
    by_cases hok : resOk status = true
    · refine ⟨?_, ?_, ?_⟩
      · constructor
        · intro _
          exact ⟨status, body, rfl, hok⟩
        · intro _
          simp [sendLogSimpleResult, sendLogSimpleTry, hok]
      · intro s b h hko
        simp only [FetchOutcome.response.injEq] at h
        obtain ⟨rfl, rfl⟩ := h
        rw [hok] at hko
        exact absurd hko (by simp)
      · intro e h
        exact absurd h (by simp)
    · refine ⟨?_, ?_, ?_⟩
      · simp only [sendLogSimpleResult, sendLogSimpleTry, hok, if_neg, Bool.not_eq_true]
        refine iff_of_false (by simp) ?_
        rintro ⟨s, b, h, hs⟩
        simp only [FetchOutcome.response.injEq] at h
        obtain ⟨rfl, rfl⟩ := h
        exact hok hs
      · intro s b h _
        simp only [FetchOutcome.response.injEq] at h
        obtain ⟨rfl, rfl⟩ := h
        simp [sendLogSimpleResult, sendLogSimpleTry, hok]
      · intro e h
        exact absurd h (by simp)

theorem sendLogSimple_resolves_witness :
    sendLogSimpleResult (.response 500 "boom") =
      ⟨false, some ("Error: HTTP " ++ toString 500 ++ ": " ++ "boom")⟩ :=
  (sendLogSimple_resolves (.response 500 "boom")).2.1 500 "boom" rfl (by decide)

/-- C10: in `extractSentimentData`, a `score` field that is absent or equal
to `0` (falsy) is replaced by `0.5`; the returned `rawLabel` is the model
label unmodified (when nonempty), while the returned `label` is its uppercased
form. -/
theorem extractSentimentData_defaulting (lab : String) (hlab : lab ≠ "")
    (scoreOpt : Option ℚ) (rest : List SentimentData) (outer : List (List SentimentData)) :
    let r := extractSentimentData ((⟨some lab, scoreOpt⟩ :: rest) :: outer)
    ((scoreOpt = none ∨ scoreOpt = some 0) → ExtractedSentiment.score r = 1/2) ∧
    ExtractedSentiment.rawLabel r = lab ∧
    ExtractedSentiment.label r = lab.toUpper := by
  refine ⟨?_, ?_, ?_⟩
  · rintro (rfl | rfl) <;> simp [extractSentimentData, jsOrString, jsOrNum, hlab]
  · simp [extractSentimentData, jsOrString, hlab]
  · simp [extractSentimentData, jsOrString, hlab]

theorem extractSentimentData_defaulting_witness :
    let r := extractSentimentData [[⟨some "positive", some 0⟩]]
    ((some (0:ℚ) = none ∨ some (0:ℚ) = some 0) → ExtractedSentiment.score r = 1/2) ∧
    ExtractedSentiment.rawLabel r = "positive" ∧
    ExtractedSentiment.label r = "positive".toUpper :=
  extractSentimentData_defaulting "positive" (by decide) (some 0) [] []

end SentimentApp
